import Mathlib

/-!
A shallow embedding, in Lean 4, of the job pipeline of the
`diffusion-model-tester` backend (FastAPI + SQLAlchemy + SinkIn client),
together with proofs about its behaviour.

The definitions below are direct translations of the Python source:

* `create_job_configs`      — src/backend/routes/runs.py
* `run_job`                 — src/backend/routes/jobs.py
* `delete_job`, `list_jobs` — src/backend/routes/jobs.py
* `delete_run`              — src/backend/routes/runs.py (cascade per
                              the relationship declarations of
                              src/backend/db/models.py)
* `upscale_image`, `score_image` — src/backend/routes/images.py
* `sinkin_inference`, `sinkin_upscale`, `sinkin_get_models`
                            — src/backend/services/sinkin.py

Modelling conventions:

* Python `Optional[T]` fields and `dict.get` defaults become `Option`
  with `Option.getD`.
* Python `float` becomes `ℚ` (no rounding behaviour is at stake in any
  property proved here).
* `datetime.utcnow()` timestamps become an abstract `Nat` clock value
  supplied by the environment; `uuid.uuid4()` becomes a deterministic
  supply driven by a counter stored in the database state.
* Outbound HTTP (`requests.post`) becomes an oracle
  `payload → Except String response`: `.error msg` models a raised
  `requests.RequestException` carrying `msg`.
* The SQLAlchemy session becomes an explicit `DB` value threaded through
  each route handler; `db.commit()` points are where the new state is
  produced.  A handler that raises before its commit leaves the state
  unchanged (uncommitted ORM mutations are discarded when the
  request-scoped session closes).
-/

/-- Python truthiness of an `Optional[str]` value: `None` and `""` are falsy. -/
def strTruthy : Option String → Bool
  | none => false
  | some s => s ≠ ""

/-- Python list indexing `l[i]` for a possibly negative `int` index:
a negative index counts from the end; an index out of range on either
side raises `IndexError` (modelled as `none`). -/
def pyIndex (l : List α) (i : Int) : Option α :=
  if 0 ≤ i then l[i.toNat]?
  else if -(l.length : Int) ≤ i then l[(i + l.length).toNat]?
  else none

/-! ## Parameter Expander (src/backend/routes/runs.py) -/

/-- The job-configuration dict built by `create_job_configs` and read back
(with `config.get` defaults) by `run_job`.  Keys the expander always
writes are `some`; keys written only conditionally are `none` when the
key is absent from the dict. -/
structure JobConfigDict where
  width : Option Int := none
  height : Option Int := none
  steps : Option Int := none
  scale : Option ℚ := none
  scheduler : Option String := none
  num_images : Option Int := none
  seed : Option Int := none
  image_strength : Option ℚ := none
  use_default_neg : Option Bool := none
  controlnet : Option String := none
  lora : Option String := none
  lora_scale : Option ℚ := none
deriving DecidableEq

/-- `RunCreateRequest` (pydantic) from src/backend/routes/runs.py, with the
schema's default values. -/
structure RunCreateRequest where
  name : Option String := none
  prompt : String
  negative_prompt : Option String := none
  model_id : String
  version : Option String := none
  width : Int := 512
  height : Int := 768
  steps_list : List Int := [30]
  scale_list : List ℚ := [7.5]
  scheduler_list : List String := ["DPMSolverMultistep"]
  num_images : Int := 4
  seed : Int := -1
  init_image_asset_id : Option String := none
  image_strength : ℚ := 0.75
  controlnet : Option String := none
  lora : Option String := none
  lora_scale : ℚ := 0.75
  total_jobs : Nat := 1
  use_default_neg : Bool := true
deriving DecidableEq

/-- `itertools.product(steps_list, scale_list, scheduler_list)`: the first
list varies slowest, the last fastest. -/
def sweepCombinations (r : RunCreateRequest) : List (Int × ℚ × String) :=
  r.steps_list.flatMap fun st =>
    r.scale_list.flatMap fun sc =>
      r.scheduler_list.map fun sch => (st, sc, sch)

/-- The dict built in the loop body of `create_job_configs` for one
combination: fixed keys always written, `controlnet` only when truthy,
`lora`/`lora_scale` only when `lora` is truthy. -/
def comboConfig (r : RunCreateRequest) (c : Int × ℚ × String) : JobConfigDict :=
  { width := some r.width
    height := some r.height
    steps := some c.1
    scale := some c.2.1
    scheduler := some c.2.2
    num_images := some r.num_images
    seed := some r.seed
    image_strength := some r.image_strength
    use_default_neg := some r.use_default_neg
    controlnet := if strTruthy r.controlnet then r.controlnet else none
    lora := if strTruthy r.lora then r.lora else none
    lora_scale := if strTruthy r.lora then some r.lora_scale else none }

/-- `create_job_configs` from src/backend/routes/runs.py:
`jobs_per_combo = max(1, total_jobs // len(combinations))` replicas of
each combination, then `configs[:total_jobs]`. -/
def create_job_configs (r : RunCreateRequest) : List JobConfigDict :=
  let combinations := sweepCombinations r
  let jobs_per_combo := max 1 (r.total_jobs / combinations.length)
  let configs := combinations.flatMap fun c =>
    List.replicate jobs_per_combo (comboConfig r c)
  configs.take r.total_jobs

/-! ## Data model (src/backend/db/models.py) -/

inductive JobStatus
  | queued
  | running
  | completed
  | failed
deriving DecidableEq

/-- The `.value` of the persisted status enum string. -/
def JobStatus.value : JobStatus → String
  | .queued => "queued"
  | .running => "running"
  | .completed => "completed"
  | .failed => "failed"

structure RunRow where
  id : String
  batch_number : Int
  name : Option String := none
  created_at : Nat := 0
  prompt : String
  negative_prompt : Option String := none
  model_id : String
  version : Option String := none
deriving DecidableEq

structure ImageRow where
  id : String
  run_id : String
  file_path : Option String := none
  upscale_url : Option String := none
  inf_id : Option String := none
  batch_index : Option Int := none
  is_failed : Bool := false
  created_at : Nat := 0
  overall_quality : Option Int := none
  anatomy_score : Option Int := none
  prompt_adherence : Option Int := none
  background_score : Option Int := none
  score_overall : Option Int := none
  score_facial_detail_realism : Option Int := none
  score_body_proportions : Option Int := none
  score_complexity_artistry : Option Int := none
  score_composition_framing : Option Int := none
  score_lighting_color : Option Int := none
  score_resolution_clarity : Option Int := none
  score_style_consistency : Option Int := none
  score_prompt_adherence : Option Int := none
  score_artifacts : Option Int := none
  use_again : Option String := none
  flaws : Option String := none
  curation_status : Option String := none
deriving DecidableEq

/-- The JSON body of a SinkIn /inference response as the routes read it:
every read goes through `dict.get` with a default, so every field is
`Option`. -/
structure RespDict where
  error_code : Option Int := none
  message : Option String := none
  images : Option (List String) := none
  inf_id : Option String := none
  credit_cost : Option ℚ := none
  seed : Option Int := none
deriving DecidableEq

/-- A TEXT column holding JSON: either text on which `json.loads` fails,
or a parsed response dict. -/
inductive StoredResp
  | invalid
  | parsed (d : RespDict)
deriving DecidableEq

/-- `payload_for_log`: the /inference form payload with the
`access_token` key removed (what `run_job` stores as
`raw_payload_json`). -/
structure InferPayloadLog where
  model_id : String
  prompt : String
  width : Int
  height : Int
  steps : Int
  scale : ℚ
  num_images : Int
  seed : Int
  scheduler : String
  use_default_neg : String
  negative_prompt : Option String := none
  lora : Option String := none
  lora_scale : Option ℚ := none
  image_strength : Option ℚ := none
  controlnet : Option String := none
deriving DecidableEq

structure ConfigRow where
  id : Nat
  image_id : String
  steps : Option Int := none
  scale : Option ℚ := none
  width : Option Int := none
  height : Option Int := none
  seed : Option Int := none
  scheduler : Option String := none
  image_strength : Option ℚ := none
  controlnet : Option String := none
  credit_cost : Option ℚ := none
  raw_payload_json : Option InferPayloadLog := none
  raw_response_json : Option StoredResp := none
deriving DecidableEq

/-- A `jobs.config_json` TEXT column: either text on which `json.loads`
fails, or a parsed job-configuration dict. -/
inductive StoredCfg
  | invalid
  | cfg (c : JobConfigDict)
deriving DecidableEq

structure JobRow where
  id : Nat
  run_id : String
  status : JobStatus := .queued
  config_json : StoredCfg
  init_image_asset_id : Option String := none
  created_at : Nat := 0
  completed_at : Option Nat := none
  error_message : Option String := none
deriving DecidableEq

structure AssetRow where
  id : String
  original_filename : String
  mime_type : Option String := none
  file_path : String
  created_at : Nat := 0
deriving DecidableEq

/-- The relational store reached through the session.  `uuidSeed` drives
the `uuid.uuid4()` supply for new image ids; `nextConfigId` is the
`configs.id` autoincrement counter. -/
structure DB where
  runs : List RunRow := []
  jobs : List JobRow := []
  images : List ImageRow := []
  configs : List ConfigRow := []
  assets : List AssetRow := []
  uuidSeed : Nat := 0
  nextConfigId : Nat := 1
deriving DecidableEq

/-- Deterministic stand-in for `uuid.uuid4()`. -/
def uuidFrom (n : Nat) : String := "uuid-" ++ toString n

/-- Update the job row with the given primary key. -/
def DB.updateJob (db : DB) (jid : Nat) (f : JobRow → JobRow) : DB :=
  { db with jobs := db.jobs.map fun j => if j.id = jid then f j else j }

/-- The failure write of `run_job`: `status=failed`, `error_message`,
`completed_at`, committed. -/
def DB.failJob (db : DB) (jid : Nat) (msg : String) (now : Nat) : DB :=
  db.updateJob jid fun j =>
    { j with status := .failed, error_message := some msg, completed_at := some now }

/-! ## Provider Client (src/backend/services/sinkin.py) -/

/-- Process configuration (src/backend/config.py). -/
structure Settings where
  sinkin_api_key : String := ""
  images_dir : String := "storage/images"
deriving DecidableEq

/-- The keyword arguments of `SinkInService.inference`, with the Python
signature's default values. -/
structure InferArgs where
  model_id : String
  prompt : String
  negative_prompt : Option String := none
  use_default_neg : Bool := true
  width : Int := 512
  height : Int := 768
  steps : Int := 30
  scale : ℚ := 7.5
  num_images : Int := 4
  seed : Int := -1
  scheduler : String := "DPMSolverMultistep"
  lora : Option String := none
  lora_scale : ℚ := 0.75
  init_image_path : Option String := none
  image_strength : ℚ := 0.75
  controlnet : Option String := none
deriving DecidableEq

/-- The form payload `SinkInService.inference` posts to `/inference`.
`Option` fields model dict keys that are added only conditionally;
`hasInitFile` records whether a `files={"init_image_file": ...}` part
was attached. -/
structure InferPayload where
  access_token : String
  model_id : String
  prompt : String
  width : Int
  height : Int
  steps : Int
  scale : ℚ
  num_images : Int
  seed : Int
  scheduler : String
  use_default_neg : String
  negative_prompt : Option String := none
  lora : Option String := none
  lora_scale : Option ℚ := none
  image_strength : Option ℚ := none
  controlnet : Option String := none
  hasInitFile : Bool := false
deriving DecidableEq

def InferPayload.forLog (p : InferPayload) : InferPayloadLog :=
  { model_id := p.model_id
    prompt := p.prompt
    width := p.width
    height := p.height
    steps := p.steps
    scale := p.scale
    num_images := p.num_images
    seed := p.seed
    scheduler := p.scheduler
    use_default_neg := p.use_default_neg
    negative_prompt := p.negative_prompt
    lora := p.lora
    lora_scale := p.lora_scale
    image_strength := p.image_strength
    controlnet := p.controlnet }

/-- Payload construction of `SinkInService.inference`: `negative_prompt`,
`lora`/`lora_scale` keys only when truthy; `image_strength` (and
`controlnet` when truthy) only for img2img; the file part only when the
init-image path moreover exists on disk. -/
def buildInferencePayload (api_key : String) (fileExists : String → Bool)
    (a : InferArgs) : InferPayload :=
  { access_token := api_key
    model_id := a.model_id
    prompt := a.prompt
    width := a.width
    height := a.height
    steps := a.steps
    scale := a.scale
    num_images := a.num_images
    seed := a.seed
    scheduler := a.scheduler
    use_default_neg := if a.use_default_neg then "true" else "false"
    negative_prompt := if strTruthy a.negative_prompt then a.negative_prompt else none
    lora := if strTruthy a.lora then a.lora else none
    lora_scale := if strTruthy a.lora then some a.lora_scale else none
    image_strength := if strTruthy a.init_image_path then some a.image_strength else none
    controlnet :=
      if strTruthy a.init_image_path && strTruthy a.controlnet then a.controlnet else none
    hasInitFile := strTruthy a.init_image_path &&
      (match a.init_image_path with
       | some p => fileExists p
       | none => false) }

/-- `SinkInService.inference`.  `transport` models
`requests.post(...).raise_for_status(); .json()`: `.error e` is a raised
`requests.RequestException` with message `e`, which the service
normalizes into `{"error_code": 1, "message": str(e)}`.  The function's
own `.error` case is the `ValueError` raised by `_get_api_key` when the
credential is missing (raised before any network call).  Returns the
posted payload (for call tracing), the redacted `payload_for_log`, and
the response dict. -/
def sinkin_inference (settings : Settings) (fileExists : String → Bool)
    (transport : InferPayload → Except String RespDict)
    (a : InferArgs) : Except String (InferPayload × InferPayloadLog × RespDict) :=
  if settings.sinkin_api_key = "" then
    .error "SINKIN_API_KEY not configured. Please add it to .env file."
  else
    let payload := buildInferencePayload settings.sinkin_api_key fileExists a
    match transport payload with
    | .ok response_data => .ok (payload, payload.forLog, response_data)
    | .error e => .ok (payload, payload.forLog, { error_code := some 1, message := some e })

/-- The JSON body of a SinkIn /upscale response. -/
structure UpscaleRespDict where
  error_code : Option Int := none
  message : Option String := none
  output : Option String := none
  credit_cost : Option ℚ := none
deriving DecidableEq

/-- The form payload `SinkInService.upscale` posts to `/upscale`:
`scale` only for `esrgan`, `strength` only for `hires_fix`. -/
structure UpscalePayload where
  access_token : String
  inf_id : String
  url : String
  type : String
  scale : Option ℚ := none
  strength : Option ℚ := none
deriving DecidableEq

/-- Payload construction of `SinkInService.upscale`. -/
def buildUpscalePayload (api_key inf_id image_url upscale_type : String)
    (scale strength : ℚ) : UpscalePayload :=
  { access_token := api_key
    inf_id := inf_id
    url := image_url
    type := upscale_type
    scale := if upscale_type = "esrgan" then some scale else none
    strength := if upscale_type = "hires_fix" then some strength else none }

/-- `SinkInService.upscale`; error normalization as for `inference`. -/
def sinkin_upscale (settings : Settings)
    (transport : UpscalePayload → Except String UpscaleRespDict)
    (inf_id : String) (image_url : String) (upscale_type : String)
    (scale : ℚ) (strength : ℚ) : Except String UpscaleRespDict :=
  if settings.sinkin_api_key = "" then
    .error "SINKIN_API_KEY not configured. Please add it to .env file."
  else
    match transport (buildUpscalePayload settings.sinkin_api_key inf_id image_url
        upscale_type scale strength) with
    | .ok d => .ok d
    | .error e => .ok { error_code := some 1, message := some e }

/-- The JSON body of a SinkIn /models response. -/
structure ModelsRespDict where
  error_code : Option Int := none
  message : Option String := none
  models : Option (List String) := none
deriving DecidableEq

/-- `SinkInService.get_models`; the payload is the credential alone;
error normalization as for `inference`. -/
def sinkin_get_models (settings : Settings)
    (transport : String → Except String ModelsRespDict) :
    Except String ModelsRespDict :=
  if settings.sinkin_api_key = "" then
    .error "SINKIN_API_KEY not configured. Please add it to .env file."
  else
    match transport settings.sinkin_api_key with
    | .ok d => .ok d
    | .error e => .ok { error_code := some 1, message := some e }

/-! ## Job Executor (src/backend/routes/jobs.py, `run_job`) -/

structure HTTPError where
  status_code : Nat
  detail : String
deriving DecidableEq

/-- The `InferenceResult` response schema (src/backend/schemas.py). -/
structure InferenceResult where
  success : Bool
  images : List String := []
  inf_id : Option String := none
  credit_cost : Option ℚ := none
  error_message : Option String := none
deriving DecidableEq

/-- Ambient effects of one `run_job` request: process settings, the
filesystem probe used for the init image, the /inference transport, the
artifact downloader (`download_image` returns the saved path, or `""`
when the download raised), and the wall clock. -/
structure RunJobEnv where
  settings : Settings
  fileExists : String → Bool
  transport : InferPayload → Except String RespDict
  download : String → String → String
  now : Nat

/-- The keyword arguments `run_job` passes to
`sinkin_service.inference` for the primary call: run-level
prompt/negative-prompt/model merged with the job config read through
`config.get` defaults. -/
def jobInferArgs (run : RunRow) (config : JobConfigDict)
    (init_image_path : Option String) : InferArgs :=
  { model_id := run.model_id
    prompt := run.prompt
    negative_prompt := run.negative_prompt
    width := config.width.getD 512
    height := config.height.getD 768
    steps := config.steps.getD 30
    scale := config.scale.getD 7.5
    num_images := config.num_images.getD 4
    seed := config.seed.getD (-1)
    scheduler := config.scheduler.getD "DPMSolverMultistep"
    lora := config.lora
    lora_scale := config.lora_scale.getD 0.75
    init_image_path := init_image_path
    image_strength := config.image_strength.getD 0.75
    controlnet := config.controlnet
    use_default_neg := config.use_default_neg.getD true }

/-- The fallback call site: `init_image_path=None`, and the
`image_strength`/`controlnet` keyword arguments are not passed at all,
so they take the signature defaults (`0.75` / `None`). -/
def jobFallbackArgs (run : RunRow) (config : JobConfigDict) : InferArgs :=
  { jobInferArgs run config none with image_strength := 0.75, controlnet := none }

/-- Init-image resolution of `run_job`: when the job references an
uploaded Asset (truthy id) and the Asset row exists, its storage path is
used; otherwise `init_image_path` stays `None`. -/
def resolveInitPath (db : DB) (job : JobRow) : Option String :=
  match job.init_image_asset_id with
  | some aid =>
    if aid ≠ "" then
      match db.assets.find? (fun a => a.id == aid) with
      | some asset => some asset.file_path
      | none => none
    else none
  | none => none

/-- The Image rows created by the success loop of `run_job`: one per
artifact URL, `batch_index` from `enumerate`, a freshly generated id,
`file_path` empty when the download failed. -/
def successImages (env : RunJobEnv) (db1 : DB) (run : RunRow) (resp : RespDict) :
    List ImageRow :=
  (resp.images.getD []).enum.map fun iu =>
    let image_id := uuidFrom (db1.uuidSeed + iu.1)
    let file_path := env.download iu.2 (image_id ++ ".png")
    { id := image_id
      run_id := run.id
      file_path := if file_path = "" then none else some file_path
      inf_id := some (resp.inf_id.getD "")
      batch_index := some (iu.1 : Int)
      is_failed := false
      created_at := env.now }

/-- The Config rows created by the success loop of `run_job`, one per
artifact URL, paired to the Image row by id. -/
def successConfigs (db1 : DB) (config : JobConfigDict)
    (init_image_path : Option String) (plog : InferPayloadLog) (resp : RespDict) :
    List ConfigRow :=
  let image_urls := resp.images.getD []
  let credit_cost := resp.credit_cost.getD 0
  image_urls.enum.map fun iu =>
    { id := db1.nextConfigId + iu.1
      image_id := uuidFrom (db1.uuidSeed + iu.1)
      steps := some (config.steps.getD 30)
      scale := some (config.scale.getD 7.5)
      width := some (config.width.getD 512)
      height := some (config.height.getD 768)
      seed := some (resp.seed.getD (config.seed.getD (-1)))
      scheduler := some (config.scheduler.getD "DPMSolverMultistep")
      image_strength := if strTruthy init_image_path then config.image_strength else none
      controlnet := config.controlnet
      credit_cost := some (if image_urls.isEmpty then credit_cost
        else credit_cost / (image_urls.length : ℚ))
      raw_payload_json := some plog
      raw_response_json := some (.parsed resp) }

/-- The success tail of `run_job`: persist one Image + Config per URL,
mark the job completed with a completion timestamp, commit, and return
the route's success body. -/
def runJobSuccess (env : RunJobEnv) (db1 : DB) (job : JobRow) (run : RunRow)
    (config : JobConfigDict) (init_image_path : Option String)
    (plog : InferPayloadLog) (resp : RespDict) : DB × Except HTTPError InferenceResult :=
  let image_urls := resp.images.getD []
  let db2 := { db1 with
    images := db1.images ++ successImages env db1 run resp
    configs := db1.configs ++ successConfigs db1 config init_image_path plog resp
    uuidSeed := db1.uuidSeed + image_urls.length
    nextConfigId := db1.nextConfigId + image_urls.length }
  let db3 := db2.updateJob job.id fun j =>
    { j with status := .completed, completed_at := some env.now }
  (db3, .ok { success := true
              images := image_urls
              inf_id := some (resp.inf_id.getD "")
              credit_cost := some (resp.credit_cost.getD 0) })

/-- `run_job` from src/backend/routes/jobs.py.  Returns the committed
state, the list of /inference payloads actually posted (the provider
call trace), and the HTTP outcome.  The provider-error branch returns an
HTTP-200 body with `success=False`; `ValueError` from the missing
credential is caught and re-raised as HTTP 500 after the job is marked
failed. -/
def run_job (env : RunJobEnv) (db : DB) (job_id : Nat) :
    DB × List InferPayload × Except HTTPError InferenceResult :=
  match db.jobs.find? (fun j => j.id == job_id) with
  | none => (db, [], .error ⟨404, "Job not found"⟩)
  | some job =>
    if job.status ≠ JobStatus.queued then
      (db, [], .error ⟨400, "Job is not queued (status: " ++ job.status.value ++ ")"⟩)
    else
      match db.runs.find? (fun rn => rn.id == job.run_id) with
      | none => (db, [], .error ⟨404, "Run not found"⟩)
      | some run =>
        match job.config_json with
        | .invalid => (db, [], .error ⟨400, "Invalid job config JSON"⟩)
        | .cfg config =>
          let db1 := db.updateJob job.id fun j => { j with status := .running }
          let init_image_path : Option String := resolveInitPath db job
          match sinkin_inference env.settings env.fileExists env.transport
              (jobInferArgs run config init_image_path) with
          | .error e => (db1.failJob job.id e env.now, [], .error ⟨500, e⟩)
          | .ok (p1, plog1, resp1) =>
            if resp1.error_code.getD 0 ≠ 0 then
              if strTruthy init_image_path then
                match sinkin_inference env.settings env.fileExists env.transport
                    (jobFallbackArgs run config) with
                | .error e => (db1.failJob job.id e env.now, [p1], .error ⟨500, e⟩)
                | .ok (p2, plog2, resp2) =>
                  if resp2.error_code.getD 0 ≠ 0 then
                    (db1.failJob job.id (resp2.message.getD "Unknown API error") env.now,
                     [p1, p2],
                     .ok { success := false
                           error_message := some (resp2.message.getD "Unknown API error") })
                  else
                    let r := runJobSuccess env db1 job run config init_image_path
                      plog2 resp2
                    (r.1, [p1, p2], r.2)
              else
                (db1.failJob job.id (resp1.message.getD "Unknown API error") env.now,
                 [p1],
                 .ok { success := false
                       error_message := some (resp1.message.getD "Unknown API error") })
            else
              let r := runJobSuccess env db1 job run config init_image_path
                plog1 resp1
              (r.1, [p1], r.2)

/-! ## Job Store operations (src/backend/routes/jobs.py) -/

structure DeleteResult where
  success : Bool
  message : String
deriving DecidableEq

/-- `delete_job`: refuse only a `running` job; any other found job row is
deleted permanently. -/
def delete_job (db : DB) (job_id : Nat) : DB × Except HTTPError DeleteResult :=
  match db.jobs.find? (fun j => j.id == job_id) with
  | none => (db, .error ⟨404, "Job not found"⟩)
  | some job =>
    if job.status = JobStatus.running then
      (db, .error ⟨400, "Cannot delete a running job"⟩)
    else
      ({ db with jobs := db.jobs.filter fun j => !(j.id == job_id) },
       .ok ⟨true, "Job " ++ toString job_id ++ " deleted"⟩)

/-- `list_jobs`: optional status / run filters, ordered by
`created_at` descending.  (The HTTP shell's parsing of the status query
string into the enum is outside this model.) -/
def list_jobs (db : DB) (status : Option JobStatus) (run_id : Option String) :
    List JobRow :=
  let l := db.jobs.filter fun j =>
    (match status with
     | some s => decide (j.status = s)
     | none => true) &&
    (match run_id with
     | some rid => j.run_id == rid
     | none => true)
  l.mergeSort fun a b => decide (b.created_at ≤ a.created_at)

/-! ## Run deletion (src/backend/routes/runs.py, `delete_run`) -/

/-- `delete_run`: the route deletes the Run row; the
`cascade="all, delete-orphan"` relationship declarations of
src/backend/db/models.py (Run.images, Run.jobs, Image.config) delete
the run's Jobs and Images and each deleted Image's Config with it. -/
def delete_run (db : DB) (run_id : String) : DB × Except HTTPError DeleteResult :=
  match db.runs.find? (fun r => r.id == run_id) with
  | none => (db, .error ⟨404, "Run not found"⟩)
  | some _ =>
    let deadImages := db.images.filter fun img => img.run_id == run_id
    ({ db with
        runs := db.runs.filter fun r => !(r.id == run_id)
        jobs := db.jobs.filter fun j => !(j.run_id == run_id)
        images := db.images.filter fun img => !(img.run_id == run_id)
        configs := db.configs.filter fun c =>
          !(deadImages.any fun img => img.id == c.image_id) },
     .ok ⟨true, "Run " ++ run_id ++ " deleted"⟩)

/-! ## Image routes (src/backend/routes/images.py) -/

/-- Errors a route handler can end with: an `HTTPException`, an uncaught
Python `IndexError`, or an uncaught `AttributeError`. -/
inductive RouteErr
  | http (status_code : Nat) (detail : String)
  | indexError
  | attributeError (name : String)
deriving DecidableEq

inductive UpscaleType
  | esrgan
  | hires_fix
deriving DecidableEq

def UpscaleType.value : UpscaleType → String
  | .esrgan => "esrgan"
  | .hires_fix => "hires_fix"

/-- `UpscaleRequest` (src/backend/schemas.py) with its defaults.  (An
explicit JSON `null` for scale/strength is not modelled.) -/
structure UpscaleRequest where
  type : UpscaleType := .esrgan
  scale : ℚ := 2
  strength : ℚ := 0.6
deriving DecidableEq

structure UpscaleEnv where
  settings : Settings
  transport : UpscalePayload → Except String UpscaleRespDict

structure UpscaleResult where
  success : Bool
  upscale_url : Option String := none
  credit_cost : ℚ := 0
  type : String := "esrgan"
deriving DecidableEq

/-- Source-URL selection of `upscale_image`:
`index = batch_index if batch_index is not None else 0`, fall back to
`0` when `index >= len(image_urls)`, then Python-index into the list
(a negative index below `-len` raises `IndexError` = `none`). -/
def selectSourceUrl (image_urls : List String) (batch_index : Option Int) :
    Option String :=
  let index : Int := batch_index.getD 0
  let index : Int := if (image_urls.length : Int) ≤ index then 0 else index
  pyIndex image_urls index

/-- `upscale_image` from src/backend/routes/images.py.  (The handler's
inner re-check of `raw_response_json` is unreachable after the outer
check and is folded into it.) -/
def upscale_image (env : UpscaleEnv) (db : DB) (image_id : String)
    (req : UpscaleRequest) : DB × Except RouteErr UpscaleResult :=
  match db.images.find? (fun i => i.id == image_id) with
  | none => (db, .error (.http 404 "Image not found"))
  | some image =>
    if !(strTruthy image.inf_id) then
      (db, .error (.http 400 "Image has no inf_id - cannot upscale"))
    else
      match db.configs.find? (fun c => c.image_id == image_id) with
      | none =>
        (db, .error (.http 400 "Image has no config data - cannot determine original URL"))
      | some config =>
        match config.raw_response_json with
        | none =>
          (db, .error (.http 400 "Image has no config data - cannot determine original URL"))
        | some .invalid => (db, .error (.http 400 "Invalid generation record data"))
        | some (.parsed raw_response) =>
          let image_urls := raw_response.images.getD []
          if image_urls.isEmpty then
            (db, .error (.http 400 "No source image URLs found in generation records"))
          else
            match selectSourceUrl image_urls image.batch_index with
            | none => (db, .error .indexError)
            | some image_url =>
              match sinkin_upscale env.settings env.transport (image.inf_id.getD "")
                  image_url req.type.value req.scale req.strength with
              | .error e => (db, .error (.http 500 e))
              | .ok result =>
                if result.error_code.getD 0 ≠ 0 then
                  (db, .error (.http 500 (result.message.getD "Upscale failed")))
                else
                  let upscale_url := result.output
                  let credit_cost := result.credit_cost.getD 0
                  ({ db with
                      images := db.images.map fun i =>
                        if i.id == image.id then { i with upscale_url := upscale_url }
                        else i
                      configs := db.configs.map fun c =>
                        if c.id == config.id then
                          { c with credit_cost := some (c.credit_cost.getD 0 + credit_cost) }
                        else c },
                   .ok { success := true
                         upscale_url := upscale_url
                         credit_cost := credit_cost
                         type := req.type.value })

/-! ## Scoring (src/backend/routes/images.py, `score_image`) -/

/-- A Python attribute value as the scoring handler would see it. -/
inductive PyVal
  | pint (n : Int)
  | pstr (s : String)
  | pbool (b : Bool)
  | plist (l : List String)
deriving DecidableEq

/-- `ScoreRequest` from src/backend/schemas.py.  Its declared fields are
exactly `overall_quality`, `anatomy_score`, `use_again`,
`prompt_adherence`, `background_score`, `is_failed` — the legacy
scoring names, not the `score_*` names the route handler reads. -/
structure ScoreRequest where
  overall_quality : Option Int := none
  anatomy_score : Option Int := none
  use_again : Option String := none
  prompt_adherence : Option Int := none
  background_score : Option Int := none
  is_failed : Option Bool := none
deriving DecidableEq

/-- `getattr` on a pydantic `ScoreRequest` instance: the model exposes
exactly its declared fields; any other attribute name raises
`AttributeError`.  Outer `none` = `AttributeError`; the inner `Option`
is the field's value (`None` permitted). -/
def ScoreRequest.getattr (r : ScoreRequest) : String → Option (Option PyVal)
  | "overall_quality" => some (r.overall_quality.map .pint)
  | "anatomy_score" => some (r.anatomy_score.map .pint)
  | "use_again" => some (r.use_again.map .pstr)
  | "prompt_adherence" => some (r.prompt_adherence.map .pint)
  | "background_score" => some (r.background_score.map .pint)
  | "is_failed" => some (r.is_failed.map .pbool)
  | _ => none

/-- `json.dumps` on a list of flaw-tag strings. -/
def jsonDumpsList (l : List String) : String :=
  "[" ++ String.intercalate ", " (l.map fun s => "\x22" ++ s ++ "\x22") ++ "]"

/-- One `if request.X is not None: image.Y = ...` assignment of the
scoring handler, keyed by the request attribute name it reads. -/
def applyScoreField (img : ImageRow) : String → PyVal → ImageRow
  | "score_overall", .pint n => { img with score_overall := some n }
  | "score_facial_detail_realism", .pint n => { img with score_facial_detail_realism := some n }
  | "score_body_proportions", .pint n => { img with score_body_proportions := some n }
  | "score_complexity_artistry", .pint n => { img with score_complexity_artistry := some n }
  | "score_composition_framing", .pint n => { img with score_composition_framing := some n }
  | "score_lighting_color", .pint n => { img with score_lighting_color := some n }
  | "score_resolution_clarity", .pint n => { img with score_resolution_clarity := some n }
  | "score_style_consistency", .pint n => { img with score_style_consistency := some n }
  | "score_prompt_adherence", .pint n => { img with score_prompt_adherence := some n }
  | "score_artifacts", .pint n => { img with score_artifacts := some n }
  | "use_again", .pstr s => { img with use_again := some s }
  | "is_failed", .pbool b => { img with is_failed := b }
  | "flaws", .pstr s => { img with flaws := some s }
  | "flaws", .plist l => { img with flaws := some (jsonDumpsList l) }
  | "curation_status", .pstr s => { img with curation_status := some s }
  | _, _ => img

/-- The request attribute names the `score_image` handler reads, in
source order (src/backend/routes/images.py lines 267-296). -/
def scoreHandlerFields : List String :=
  ["score_overall", "score_facial_detail_realism", "score_body_proportions",
   "score_complexity_artistry", "score_composition_framing", "score_lighting_color",
   "score_resolution_clarity", "score_style_consistency", "score_prompt_adherence",
   "score_artifacts", "use_again", "is_failed", "flaws", "curation_status"]

/-- Run the handler's update block: read each attribute in source order,
skip `None` values, apply the assignment otherwise; an attribute the
request object does not have aborts the handler with `AttributeError`. -/
def applyScoreUpdates (r : ScoreRequest) : ImageRow → List String → Except RouteErr ImageRow
  | img, [] => .ok img
  | img, name :: rest =>
    match r.getattr name with
    | none => .error (.attributeError name)
    | some none => applyScoreUpdates r img rest
    | some (some v) => applyScoreUpdates r (applyScoreField img name v) rest

/-- `score_image` from src/backend/routes/images.py.  An exception
before `db.commit()` leaves the stored state unchanged (the
request-scoped session is closed without committing). -/
def score_image (db : DB) (image_id : String) (r : ScoreRequest) :
    DB × Except RouteErr ImageRow :=
  match db.images.find? (fun i => i.id == image_id) with
  | none => (db, .error (.http 404 "Image not found"))
  | some image =>
    match applyScoreUpdates r image scoreHandlerFields with
    | .error e => (db, .error e)
    | .ok image' =>
      ({ db with images := db.images.map fun i => if i.id == image_id then image' else i },
       .ok image')

/-! ## Concrete example data (used by the closed instantiations below) -/

def exSettings : Settings := { sinkin_api_key := "k" }

def exRun : RunRow := { id := "run-1", batch_number := 1, prompt := "a cat", model_id := "m1" }

def exRun2 : RunRow := { id := "run-2", batch_number := 2, prompt := "b", model_id := "m1" }

def exCfg : JobConfigDict :=
  { width := some 512, height := some 768, steps := some 30, scale := some 7.5
    scheduler := some "A", num_images := some 4, seed := some (-1)
    image_strength := some (3/4), use_default_neg := some true }

def exJobQueued : JobRow := { id := 1, run_id := "run-1", config_json := .cfg exCfg }

def exJobCompleted : JobRow :=
  { id := 2, run_id := "run-1", status := .completed, config_json := .cfg exCfg }

def exJobImg : JobRow :=
  { id := 3, run_id := "run-1", config_json := .cfg exCfg
    init_image_asset_id := some "asset-1" }

def exJob4 : JobRow := { id := 4, run_id := "run-2", config_json := .cfg exCfg }

def exAsset : AssetRow :=
  { id := "asset-1", original_filename := "seed.png", file_path := "/assets/seed.png" }

def exRespOk4 : RespDict :=
  { error_code := some 0, images := some ["u0", "u1", "u2", "u3"]
    inf_id := some "inf-1", credit_cost := some 2, seed := some 42 }

def exRespErr1 : RespDict := { error_code := some 5, message := some "img2img rejected" }

def exRespErr2 : RespDict := { error_code := some 6, message := some "text2img rejected" }

def exRespOne : RespDict :=
  { error_code := some 0, images := some ["only-url"], inf_id := some "inf-1"
    credit_cost := some 1 }

def exImage : ImageRow :=
  { id := "img-1", run_id := "run-1", inf_id := some "inf-1", batch_index := some 1
    file_path := some "/img/u1", score_overall := some 4, curation_status := some "use_again" }

def exImageNeg : ImageRow :=
  { id := "img-2", run_id := "run-1", inf_id := some "inf-1", batch_index := some (-2) }

def exImage3 : ImageRow := { id := "img-3", run_id := "run-2" }

def exConfig : ConfigRow :=
  { id := 1, image_id := "img-1", credit_cost := some (1/2)
    raw_response_json := some (.parsed exRespOk4) }

def exConfigNeg : ConfigRow :=
  { id := 2, image_id := "img-2", raw_response_json := some (.parsed exRespOne) }

def exConfig3 : ConfigRow := { id := 3, image_id := "img-3" }

def exDB : DB :=
  { runs := [exRun], jobs := [exJobQueued, exJobCompleted, exJobImg]
    assets := [exAsset] }

def exDBimg : DB := { runs := [exRun], images := [exImage], configs := [exConfig] }

def exDBneg : DB := { runs := [exRun], images := [exImageNeg], configs := [exConfigNeg] }

def exDBfull : DB :=
  { runs := [exRun, exRun2]
    jobs := [exJobQueued, exJobCompleted, exJobImg, exJob4]
    images := [exImage, exImageNeg, exImage3]
    configs := [exConfig, exConfigNeg, exConfig3]
    assets := [exAsset] }

def exEnvC2 : RunJobEnv :=
  { settings := exSettings, fileExists := fun _ => true
    transport := fun _ => .error "unused", download := fun _ _ => "", now := 100 }

def exEnvC3 : RunJobEnv :=
  { settings := exSettings, fileExists := fun _ => true
    transport := fun p => if p.image_strength.isSome then .ok exRespErr1 else .ok exRespErr2
    download := fun _ _ => "", now := 100 }

def exEnvC4 : RunJobEnv :=
  { settings := exSettings, fileExists := fun _ => true
    transport := fun _ => .ok exRespOk4
    download := fun url _ => "/img/" ++ url, now := 100 }

def exInferArgs : InferArgs := { model_id := "m1", prompt := "a cat" }

def exUpOk1 : UpscaleRespDict :=
  { error_code := some 0, output := some "up-url-1", credit_cost := some (1/4) }

def exUpOk2 : UpscaleRespDict :=
  { error_code := some 0, output := some "up-url-2", credit_cost := some (1/8) }

def exUpEnv1 : UpscaleEnv := { settings := exSettings, transport := fun _ => .ok exUpOk1 }

def exUpEnv2 : UpscaleEnv := { settings := exSettings, transport := fun _ => .ok exUpOk2 }

def exUpReq : UpscaleRequest := {}

def exScoreReq : ScoreRequest := { is_failed := some true }

def exRunRequest : RunCreateRequest :=
  { prompt := "a cat", model_id := "m1", steps_list := [20, 30]
    scale_list := [5, 7.5], scheduler_list := ["A"], total_jobs := 4 }

def exRunRequest10 : RunCreateRequest :=
  { prompt := "a cat", model_id := "m1", steps_list := [20, 30]
    scale_list := [5, 7.5], scheduler_list := ["A"], total_jobs := 10 }

/-- `len(combinations)` of `create_job_configs`:
the Cartesian-product combination count K. -/
def comboCount (r : RunCreateRequest) : ℕ :=
  r.steps_list.length * r.scale_list.length * r.scheduler_list.length

/-- `jobs_per_combo = max(1, total_jobs // len(combinations))`. -/
def replicasPerCombo (r : RunCreateRequest) : ℕ :=
  max 1 (r.total_jobs / comboCount r)

/-! ## Auxiliary list lemmas -/

theorem length_flatMap_const {α β : Type} (f : α → List β) (L : ℕ)
    (hf : ∀ a, (f a).length = L) (l : List α) :
    (l.flatMap f).length = L * l.length := by
  induction l with
  | nil => simp
  | cons a t ih =>
    simp only [List.flatMap_cons, List.length_append, hf, ih, List.length_cons,
      Nat.mul_succ]
    omega

theorem getElem?_flatMap_const {α β : Type} (f : α → List β) (L : ℕ) (hL : 0 < L)
    (hf : ∀ a, (f a).length = L) (l : List α) (i : ℕ) :
    (l.flatMap f)[i]? = l[i / L]?.bind fun a => (f a)[i % L]? := by
  induction l generalizing i with
  | nil => simp
  | cons a t ih =>
    rw [List.flatMap_cons, List.getElem?_append]
    by_cases h : i < L
    · rw [if_pos (by rw [hf]; exact h), Nat.div_eq_of_lt h, Nat.mod_eq_of_lt h]
      simp
    · have hLe : L ≤ i := Nat.le_of_not_lt h
      have hi : i = (i - L) + L := (Nat.sub_add_cancel hLe).symm
      have h1 : i / L = (i - L) / L + 1 := by
        conv_lhs => rw [hi]
        rw [Nat.add_div_right _ hL]
      have h2 : i % L = (i - L) % L := by
        conv_lhs => rw [hi]
        rw [Nat.add_mod_right]
      rw [if_neg (by rw [hf]; exact h), hf, ih, h1, h2, List.getElem?_cons_succ]

theorem sweepCombinations_length (r : RunCreateRequest) :
    (sweepCombinations r).length = comboCount r := by
  rw [sweepCombinations, comboCount,
    length_flatMap_const _ (r.scheduler_list.length * r.scale_list.length)
      (fun st => length_flatMap_const _ r.scheduler_list.length (fun sc => by simp) _) _]
  ring

theorem getElem?_sweepCombinations (r : RunCreateRequest)
    (h2 : r.scale_list ≠ []) (h3 : r.scheduler_list ≠ []) (i : ℕ) :
    (sweepCombinations r)[i]? =
      r.steps_list[i / (r.scale_list.length * r.scheduler_list.length)]?.bind fun st =>
        (r.scale_list[i / r.scheduler_list.length % r.scale_list.length]?.bind fun sc =>
          (r.scheduler_list[i % r.scheduler_list.length]?.map fun sch => (st, sc, sch))) := by
  have hm : 0 < r.scale_list.length := List.length_pos.mpr h2
  have hp : 0 < r.scheduler_list.length := List.length_pos.mpr h3
  have hmp : 0 < r.scale_list.length * r.scheduler_list.length := Nat.mul_pos hm hp
  have e1 : i % (r.scale_list.length * r.scheduler_list.length) / r.scheduler_list.length
      = i / r.scheduler_list.length % r.scale_list.length := by
    rw [Nat.mul_comm]
    exact Nat.mod_mul_right_div_self i _ _
  have e2 : i % (r.scale_list.length * r.scheduler_list.length) % r.scheduler_list.length
      = i % r.scheduler_list.length :=
    Nat.mod_mod_of_dvd i (dvd_mul_left _ _)
  rw [sweepCombinations,
    getElem?_flatMap_const _ (r.scale_list.length * r.scheduler_list.length) hmp
      (fun st => by
        rw [length_flatMap_const _ r.scheduler_list.length (fun sc => by simp) _]
        ring) _ i]
  congr 1
  funext st
  rw [getElem?_flatMap_const _ r.scheduler_list.length hp (fun sc => by simp) _]
  simp only [List.getElem?_map, e1, e2]

theorem create_job_configs_eq (r : RunCreateRequest) :
    create_job_configs r =
      ((sweepCombinations r).flatMap fun c =>
        List.replicate (replicasPerCombo r) (comboConfig r c)).take r.total_jobs := by
  simp only [create_job_configs, replicasPerCombo, comboCount, sweepCombinations_length]

/-! ## C1 — Parameter Expander -/

/-- C1: for non-empty steps/scale/scheduler lists, `create_job_configs`
produces exactly `min(total_jobs, K * max(1, total_jobs // K))`
configurations (K the Cartesian-product combination count); element `i`
carries the product combination of index `i / replicas`, with the first
list varying slowest (nested-loop order), i.e. each combination is
replicated `max(1, total_jobs // K)` times consecutively and the
candidate sequence is truncated to `total_jobs` preserving order.
Determinism for identical inputs holds because the expander is a pure
function of the request. -/
theorem create_job_configs_ok (r : RunCreateRequest)
    (h1 : r.steps_list ≠ []) (h2 : r.scale_list ≠ []) (h3 : r.scheduler_list ≠ []) :
    (create_job_configs r).length =
      min r.total_jobs (comboCount r * replicasPerCombo r) ∧
    ∀ i < (create_job_configs r).length,
      (create_job_configs r)[i]? =
        some (comboConfig r
          (r.steps_list[i / replicasPerCombo r /
              (r.scale_list.length * r.scheduler_list.length)]!,
           r.scale_list[i / replicasPerCombo r / r.scheduler_list.length %
              r.scale_list.length]!,
           r.scheduler_list[i / replicasPerCombo r % r.scheduler_list.length]!)) := by
  have hn : 0 < r.steps_list.length := List.length_pos.mpr h1
  have hm : 0 < r.scale_list.length := List.length_pos.mpr h2
  have hp : 0 < r.scheduler_list.length := List.length_pos.mpr h3
  have hmp : 0 < r.scale_list.length * r.scheduler_list.length := Nat.mul_pos hm hp
  have hrep : 0 < replicasPerCombo r := lt_of_lt_of_le Nat.one_pos (le_max_left 1 _)
  have hlen : (create_job_configs r).length =
      min r.total_jobs (comboCount r * replicasPerCombo r) := by
    rw [create_job_configs_eq, List.length_take,
      length_flatMap_const _ (replicasPerCombo r) (fun c => List.length_replicate _ _) _,
      sweepCombinations_length, Nat.mul_comm]
  refine ⟨hlen, fun i hi => ?_⟩
  rw [hlen] at hi
  have hitj : i < r.total_jobs := lt_of_lt_of_le hi (Nat.min_le_left _ _)
  have hiK : i < comboCount r * replicasPerCombo r :=
    lt_of_lt_of_le hi (Nat.min_le_right _ _)
  have hj : i / replicasPerCombo r < comboCount r :=
    (Nat.div_lt_iff_lt_mul hrep).mpr hiK
  have hj1 : i / replicasPerCombo r / (r.scale_list.length * r.scheduler_list.length)
      < r.steps_list.length := by
    refine (Nat.div_lt_iff_lt_mul hmp).mpr ?_
    calc i / replicasPerCombo r < comboCount r := hj
    _ = r.steps_list.length * (r.scale_list.length * r.scheduler_list.length) := by
        rw [comboCount, Nat.mul_assoc]
  have hj2 : i / replicasPerCombo r / r.scheduler_list.length % r.scale_list.length
      < r.scale_list.length := Nat.mod_lt _ hm
  have hj3 : i / replicasPerCombo r % r.scheduler_list.length
      < r.scheduler_list.length := Nat.mod_lt _ hp
  rw [create_job_configs_eq, List.getElem?_take, if_pos hitj,
    getElem?_flatMap_const _ (replicasPerCombo r) hrep
      (fun c => List.length_replicate _ _) _ i,
    getElem?_sweepCombinations r h2 h3]
  simp only [List.getElem?_replicate, Nat.mod_lt i hrep, if_true,
    List.getElem?_eq_getElem hj1, List.getElem?_eq_getElem hj2,
    List.getElem?_eq_getElem hj3]
  simp [getElem!_pos r.steps_list
      (i / replicasPerCombo r / (r.scale_list.length * r.scheduler_list.length)) hj1,
    getElem!_pos r.scale_list
      (i / replicasPerCombo r / r.scheduler_list.length % r.scale_list.length) hj2,
    getElem!_pos r.scheduler_list
      (i / replicasPerCombo r % r.scheduler_list.length) hj3]

/-- Closed instantiation of C1 at steps=[20,30], scales=[5,7.5],
schedulers=["A"], total_jobs=4. -/
theorem create_job_configs_ok_witness :
    (create_job_configs exRunRequest).length =
      min exRunRequest.total_jobs (comboCount exRunRequest * replicasPerCombo exRunRequest) ∧
    ∀ i < (create_job_configs exRunRequest).length,
      (create_job_configs exRunRequest)[i]? =
        some (comboConfig exRunRequest
          (exRunRequest.steps_list[i / replicasPerCombo exRunRequest /
              (exRunRequest.scale_list.length * exRunRequest.scheduler_list.length)]!,
           exRunRequest.scale_list[i / replicasPerCombo exRunRequest /
              exRunRequest.scheduler_list.length % exRunRequest.scale_list.length]!,
           exRunRequest.scheduler_list[i / replicasPerCombo exRunRequest %
              exRunRequest.scheduler_list.length]!)) :=
  create_job_configs_ok exRunRequest (by decide) (by decide) (by decide)

/-! ## C6 — Provider Client error normalization -/

/-- C6: for each Provider Client operation (generate, upscale,
list-models), a transport failure (raised `requests.RequestException`
with message `e`) is returned to the caller as a response-shaped value
`{"error_code": 1, "message": e}` whose error code is nonzero, instead
of propagating the exception; only the configuration `ValueError` for a
missing credential (excluded by `hkey`) escapes. -/
theorem provider_transport_error_normalized (s : Settings) (e : String)
    (hkey : s.sinkin_api_key ≠ "") :
    (∀ (fe : String → Bool) (a : InferArgs),
      sinkin_inference s fe (fun _ => .error e) a =
        .ok (buildInferencePayload s.sinkin_api_key fe a,
             (buildInferencePayload s.sinkin_api_key fe a).forLog,
             { error_code := some 1, message := some e })) ∧
    (∀ (inf_id image_url upscale_type : String) (scale strength : ℚ),
      sinkin_upscale s (fun _ => .error e) inf_id image_url upscale_type scale strength =
        .ok { error_code := some 1, message := some e }) ∧
    (sinkin_get_models s (fun _ => .error e) =
      .ok { error_code := some 1, message := some e }) ∧
    ({ error_code := some 1, message := some e : RespDict }).error_code.getD 0 ≠ 0 ∧
    ({ error_code := some 1, message := some e : UpscaleRespDict }).error_code.getD 0 ≠ 0 ∧
    ({ error_code := some 1, message := some e : ModelsRespDict }).error_code.getD 0 ≠ 0 := by
  refine ⟨fun fe a => ?_, fun i u t sc st => ?_, ?_, by simp, by simp, by simp⟩
  · simp [sinkin_inference, hkey]
  · simp [sinkin_upscale, hkey]
  · simp [sinkin_get_models, hkey]

/-- Closed instantiation of C6 at a configured credential and transport
failure message "boom". -/
theorem provider_transport_error_normalized_witness :
    (∀ (fe : String → Bool) (a : InferArgs),
      sinkin_inference exSettings fe (fun _ => .error "boom") a =
        .ok (buildInferencePayload exSettings.sinkin_api_key fe a,
             (buildInferencePayload exSettings.sinkin_api_key fe a).forLog,
             { error_code := some 1, message := some "boom" })) ∧
    (∀ (inf_id image_url upscale_type : String) (scale strength : ℚ),
      sinkin_upscale exSettings (fun _ => .error "boom") inf_id image_url upscale_type
          scale strength =
        .ok { error_code := some 1, message := some "boom" }) ∧
    (sinkin_get_models exSettings (fun _ => .error "boom") =
      .ok { error_code := some 1, message := some "boom" }) ∧
    ({ error_code := some 1, message := some "boom" : RespDict }).error_code.getD 0 ≠ 0 ∧
    ({ error_code := some 1, message := some "boom" : UpscaleRespDict }).error_code.getD 0 ≠ 0 ∧
    ({ error_code := some 1, message := some "boom" : ModelsRespDict }).error_code.getD 0 ≠ 0 :=
  provider_transport_error_normalized exSettings "boom" (by decide)

/-! ## C2 — executing a non-queued job is rejected without side effects -/

/-- C2: when the addressed job exists but is not `queued` (in particular
`completed` or `failed`), `run_job` returns the illegal-transition error
(HTTP 400, the spec's status code for an illegal state transition)
before any side effect: the returned state is the unchanged input state
(status, error message and completion timestamp included), and the
provider call trace is empty, so no Image or Config row was created. -/
theorem run_job_rejects_non_queued (env : RunJobEnv) (db : DB) (jid : Nat) (job : JobRow)
    (hfind : db.jobs.find? (fun j => j.id == jid) = some job)
    (hst : job.status ≠ .queued) :
    run_job env db jid =
      (db, [], .error ⟨400, "Job is not queued (status: " ++ job.status.value ++ ")"⟩) := by
  simp [run_job, hfind, hst]

/-- Closed instantiation of C2: executing the already-completed job 2 of
`exDB` is rejected and the state is untouched. -/
theorem run_job_rejects_non_queued_witness :
    run_job exEnvC2 exDB 2 =
      (exDB, [],
       .error ⟨400, "Job is not queued (status: " ++ exJobCompleted.status.value ++ ")"⟩) :=
  run_job_rejects_non_queued exEnvC2 exDB 2 exJobCompleted rfl (by decide)

/-! ## C3 — provider-error fallback -/

/-- C3: (a) when the job resolved a seed image and the generate call
reports a provider-side error, exactly one retry is made with the seed
image dropped and the `image_strength`/`controlnet` conditioning fields
and the file part absent from the retried payload; if the retry also
errors, the job ends `failed` with the second response's message and a
completion timestamp, the call trace has exactly the two payloads, and
the stored Image and Config tables are unchanged (zero rows created).
(b) without a seed image an erroring call leads directly to `failed`
with that call's message, a one-element call trace, and no Image or
Config rows. -/
theorem run_job_provider_error_fallback (env : RunJobEnv) (db : DB) (jid : Nat)
    (job : JobRow) (run : RunRow) (config : JobConfigDict)
    (hfind : db.jobs.find? (fun j => j.id == jid) = some job)
    (hq : job.status = .queued)
    (hrun : db.runs.find? (fun rn => rn.id == job.run_id) = some run)
    (hcfg : job.config_json = .cfg config)
    (hkey : env.settings.sinkin_api_key ≠ "") :
    (∀ (aid : String) (asset : AssetRow) (resp1 resp2 : RespDict),
      job.init_image_asset_id = some aid → aid ≠ "" →
      db.assets.find? (fun a => a.id == aid) = some asset →
      asset.file_path ≠ "" →
      env.transport (buildInferencePayload env.settings.sinkin_api_key env.fileExists
        (jobInferArgs run config (some asset.file_path))) = .ok resp1 →
      resp1.error_code.getD 0 ≠ 0 →
      env.transport (buildInferencePayload env.settings.sinkin_api_key env.fileExists
        (jobFallbackArgs run config)) = .ok resp2 →
      resp2.error_code.getD 0 ≠ 0 →
      run_job env db jid =
        ((db.updateJob jid fun j => { j with status := .running }).failJob jid
            (resp2.message.getD "Unknown API error") env.now,
         [buildInferencePayload env.settings.sinkin_api_key env.fileExists
            (jobInferArgs run config (some asset.file_path)),
          buildInferencePayload env.settings.sinkin_api_key env.fileExists
            (jobFallbackArgs run config)],
         .ok { success := false
               error_message := some (resp2.message.getD "Unknown API error") }) ∧
      (buildInferencePayload env.settings.sinkin_api_key env.fileExists
        (jobFallbackArgs run config)).image_strength = none ∧
      (buildInferencePayload env.settings.sinkin_api_key env.fileExists
        (jobFallbackArgs run config)).controlnet = none ∧
      (buildInferencePayload env.settings.sinkin_api_key env.fileExists
        (jobFallbackArgs run config)).hasInitFile = false ∧
      (run_job env db jid).1.images = db.images ∧
      (run_job env db jid).1.configs = db.configs) ∧
    (∀ resp1 : RespDict,
      job.init_image_asset_id = none →
      env.transport (buildInferencePayload env.settings.sinkin_api_key env.fileExists
        (jobInferArgs run config none)) = .ok resp1 →
      resp1.error_code.getD 0 ≠ 0 →
      run_job env db jid =
        ((db.updateJob jid fun j => { j with status := .running }).failJob jid
            (resp1.message.getD "Unknown API error") env.now,
         [buildInferencePayload env.settings.sinkin_api_key env.fileExists
            (jobInferArgs run config none)],
         .ok { success := false
               error_message := some (resp1.message.getD "Unknown API error") }) ∧
      (run_job env db jid).1.images = db.images ∧
      (run_job env db jid).1.configs = db.configs) := by
  have hid : job.id = jid := by
    have h := List.find?_some hfind
    simpa using h
  constructor
  · intro aid asset resp1 resp2 ha hane hassets hpath htr1 herr1 htr2 herr2
    have hip : resolveInitPath db job = some asset.file_path := by
      simp [resolveInitPath, ha, hane, hassets]
    have hmain : run_job env db jid =
        ((db.updateJob jid fun j => { j with status := .running }).failJob jid
            (resp2.message.getD "Unknown API error") env.now,
         [buildInferencePayload env.settings.sinkin_api_key env.fileExists
            (jobInferArgs run config (some asset.file_path)),
          buildInferencePayload env.settings.sinkin_api_key env.fileExists
            (jobFallbackArgs run config)],
         .ok { success := false
               error_message := some (resp2.message.getD "Unknown API error") }) := by
      simp [run_job, hfind, hq, hrun, hcfg, hip, hid, sinkin_inference, hkey, htr1,
        herr1, htr2, herr2, strTruthy, hpath]
    refine ⟨hmain, ?_, ?_, ?_, ?_, ?_⟩
    · simp [buildInferencePayload, jobFallbackArgs, jobInferArgs, strTruthy]
    · simp [buildInferencePayload, jobFallbackArgs, jobInferArgs, strTruthy]
    · simp [buildInferencePayload, jobFallbackArgs, jobInferArgs, strTruthy]
    · rw [hmain]
      simp [DB.failJob, DB.updateJob]
    · rw [hmain]
      simp [DB.failJob, DB.updateJob]
  · intro resp1 hinit htr1 herr1
    have hip : resolveInitPath db job = none := by
      simp [resolveInitPath, hinit]
    have hmain : run_job env db jid =
        ((db.updateJob jid fun j => { j with status := .running }).failJob jid
            (resp1.message.getD "Unknown API error") env.now,
         [buildInferencePayload env.settings.sinkin_api_key env.fileExists
            (jobInferArgs run config none)],
         .ok { success := false
               error_message := some (resp1.message.getD "Unknown API error") }) := by
      simp [run_job, hfind, hq, hrun, hcfg, hip, hid, sinkin_inference, hkey, htr1,
        herr1, strTruthy]
    refine ⟨hmain, ?_, ?_⟩
    · rw [hmain]
      simp [DB.failJob, DB.updateJob]
    · rw [hmain]
      simp [DB.failJob, DB.updateJob]

/-- Closed instantiation of C3 scenario (a): job 3 of `exDB` references
seed asset "asset-1"; both calls report provider errors; the job ends
`failed` with the second message and no Image/Config rows appear. -/
theorem run_job_provider_error_fallback_witness :
    run_job exEnvC3 exDB 3 =
      ((exDB.updateJob 3 fun j => { j with status := .running }).failJob 3
          (exRespErr2.message.getD "Unknown API error") exEnvC3.now,
       [buildInferencePayload exEnvC3.settings.sinkin_api_key exEnvC3.fileExists
          (jobInferArgs exRun exCfg (some exAsset.file_path)),
        buildInferencePayload exEnvC3.settings.sinkin_api_key exEnvC3.fileExists
          (jobFallbackArgs exRun exCfg)],
       .ok { success := false
             error_message := some (exRespErr2.message.getD "Unknown API error") }) ∧
    (buildInferencePayload exEnvC3.settings.sinkin_api_key exEnvC3.fileExists
      (jobFallbackArgs exRun exCfg)).image_strength = none ∧
    (buildInferencePayload exEnvC3.settings.sinkin_api_key exEnvC3.fileExists
      (jobFallbackArgs exRun exCfg)).controlnet = none ∧
    (buildInferencePayload exEnvC3.settings.sinkin_api_key exEnvC3.fileExists
      (jobFallbackArgs exRun exCfg)).hasInitFile = false ∧
    (run_job exEnvC3 exDB 3).1.images = exDB.images ∧
    (run_job exEnvC3 exDB 3).1.configs = exDB.configs :=
  (run_job_provider_error_fallback exEnvC3 exDB 3 exJobImg exRun exCfg rfl rfl rfl rfl
      (by decide)).1 "asset-1" exAsset exRespErr1 exRespErr2 rfl (by decide) rfl
    (by decide) rfl (by decide) rfl (by decide)

/-! ## C4 — success path persistence -/

theorem length_successImages (env : RunJobEnv) (db1 : DB) (run : RunRow)
    (resp : RespDict) :
    (successImages env db1 run resp).length = (resp.images.getD []).length := by
  simp [successImages]

theorem length_successConfigs (db1 : DB) (config : JobConfigDict)
    (init_image_path : Option String) (plog : InferPayloadLog) (resp : RespDict) :
    (successConfigs db1 config init_image_path plog resp).length =
      (resp.images.getD []).length := by
  simp [successConfigs]

theorem successImages_getElem? (env : RunJobEnv) (db1 : DB) (run : RunRow)
    (resp : RespDict) (i : ℕ) (h : i < (resp.images.getD []).length) :
    (successImages env db1 run resp)[i]? =
      some { id := uuidFrom (db1.uuidSeed + i)
             run_id := run.id
             file_path := if env.download (resp.images.getD [])[i]
                 (uuidFrom (db1.uuidSeed + i) ++ ".png") = "" then none
               else some (env.download (resp.images.getD [])[i]
                 (uuidFrom (db1.uuidSeed + i) ++ ".png"))
             inf_id := some (resp.inf_id.getD "")
             batch_index := some (i : ℤ)
             is_failed := false
             created_at := env.now } := by
  simp [successImages, List.getElem?_enum, List.getElem?_eq_getElem h]

theorem successConfigs_getElem? (db1 : DB) (config : JobConfigDict)
    (init_image_path : Option String) (plog : InferPayloadLog) (resp : RespDict)
    (i : ℕ) (h : i < (resp.images.getD []).length) :
    (successConfigs db1 config init_image_path plog resp)[i]? =
      some { id := db1.nextConfigId + i
             image_id := uuidFrom (db1.uuidSeed + i)
             steps := some (config.steps.getD 30)
             scale := some (config.scale.getD 7.5)
             width := some (config.width.getD 512)
             height := some (config.height.getD 768)
             seed := some (resp.seed.getD (config.seed.getD (-1)))
             scheduler := some (config.scheduler.getD "DPMSolverMultistep")
             image_strength := if strTruthy init_image_path then config.image_strength
               else none
             controlnet := config.controlnet
             credit_cost := some (if (resp.images.getD []).isEmpty then
                 resp.credit_cost.getD 0
               else resp.credit_cost.getD 0 / ((resp.images.getD []).length : ℚ))
             raw_payload_json := some plog
             raw_response_json := some (.parsed resp) } := by
  simp [successConfigs, List.getElem?_enum, List.getElem?_eq_getElem h]

theorem map_if_id_comp (l : List JobRow) (jid : Nat) (f g : JobRow → JobRow)
    (hf : ∀ j, (f j).id = j.id) :
    ((l.map fun j => if j.id = jid then f j else j).map fun j =>
        if j.id = jid then g j else j) =
      l.map fun j => if j.id = jid then g (f j) else j := by
  rw [List.map_map]
  refine List.map_congr_left fun j _ => ?_
  by_cases h : j.id = jid
  · simp [Function.comp, h, hf]
  · simp [Function.comp, h]

/-- C4: when the job is queued, its run and config resolve, the
credential is configured, and the generate call returns a success
response (`error_code` 0) with artifact URLs `urls ≠ []` and total
credit cost C, then `run_job` makes exactly one provider call, returns
the success body, appends exactly `urls.length` Image rows and
`urls.length` Config rows (one pair per URL, `batch_index` 0..N-1 in URL
order, each Config costed C / N and keyed to its Image's id), and marks
the job `completed` with a completion timestamp. -/
theorem run_job_success_persists (env : RunJobEnv) (db : DB) (jid : Nat)
    (job : JobRow) (run : RunRow) (config : JobConfigDict)
    (resp : RespDict) (urls : List String)
    (hfind : db.jobs.find? (fun j => j.id == jid) = some job)
    (hq : job.status = .queued)
    (hrun : db.runs.find? (fun rn => rn.id == job.run_id) = some run)
    (hcfg : job.config_json = .cfg config)
    (hkey : env.settings.sinkin_api_key ≠ "")
    (htr : env.transport (buildInferencePayload env.settings.sinkin_api_key env.fileExists
      (jobInferArgs run config (resolveInitPath db job))) = .ok resp)
    (hok : resp.error_code.getD 0 = 0)
    (himgs : resp.images = some urls)
    (hne : urls ≠ []) :
    (run_job env db jid).2.2 = .ok
      { success := true
        images := urls
        inf_id := some (resp.inf_id.getD "")
        credit_cost := some (resp.credit_cost.getD 0) } ∧
    (run_job env db jid).2.1 =
      [buildInferencePayload env.settings.sinkin_api_key env.fileExists
        (jobInferArgs run config (resolveInitPath db job))] ∧
    (run_job env db jid).1.images.length = db.images.length + urls.length ∧
    (run_job env db jid).1.configs.length = db.configs.length + urls.length ∧
    (∀ i, i < urls.length → ∃ img c,
      (run_job env db jid).1.images[db.images.length + i]? = some img ∧
      (run_job env db jid).1.configs[db.configs.length + i]? = some c ∧
      img.batch_index = some (i : ℤ) ∧
      img.run_id = run.id ∧
      img.inf_id = some (resp.inf_id.getD "") ∧
      img.is_failed = false ∧
      c.image_id = img.id ∧
      c.credit_cost = some (resp.credit_cost.getD 0 / (urls.length : ℚ))) ∧
    (run_job env db jid).1.jobs = db.jobs.map fun j =>
      if j.id = jid then { j with status := .completed, completed_at := some env.now }
      else j := by
  have hid : job.id = jid := by
    have h := List.find?_some hfind
    simpa using h
  have hrj : run_job env db jid =
      ((runJobSuccess env (db.updateJob jid fun j => { j with status := .running }) job
          run config (resolveInitPath db job)
          (buildInferencePayload env.settings.sinkin_api_key env.fileExists
            (jobInferArgs run config (resolveInitPath db job))).forLog resp).1,
       [buildInferencePayload env.settings.sinkin_api_key env.fileExists
          (jobInferArgs run config (resolveInitPath db job))],
       (runJobSuccess env (db.updateJob jid fun j => { j with status := .running }) job
          run config (resolveInitPath db job)
          (buildInferencePayload env.settings.sinkin_api_key env.fileExists
            (jobInferArgs run config (resolveInitPath db job))).forLog resp).2) := by
    simp [run_job, hfind, hq, hrun, hcfg, hid, sinkin_inference, hkey, htr, hok]
  have hne' : urls.length ≠ 0 := fun h => hne (List.length_eq_zero.mp h)
  refine ⟨?_, ?_, ?_, ?_, ?_, ?_⟩
  · rw [hrj]
    simp [runJobSuccess, himgs]
  · rw [hrj]
  · rw [hrj]
    simp [runJobSuccess, DB.updateJob, length_successImages, himgs]
  · rw [hrj]
    simp [runJobSuccess, DB.updateJob, length_successConfigs, himgs]
  · intro i hi
    have hπ : i < (resp.images.getD []).length := by
      rw [himgs]
      simpa using hi
    rw [hrj]
    simp only [runJobSuccess, DB.updateJob]
    rw [List.getElem?_append,
      if_neg (show ¬ (db.images.length + i < db.images.length) by omega),
      Nat.add_sub_cancel_left, successImages_getElem? _ _ _ _ i hπ,
      List.getElem?_append,
      if_neg (show ¬ (db.configs.length + i < db.configs.length) by omega),
      Nat.add_sub_cancel_left, successConfigs_getElem? _ _ _ _ _ i hπ]
    exact ⟨_, _, rfl, rfl, rfl, rfl, rfl, rfl, rfl,
      by simp [himgs, List.isEmpty_iff, hne]⟩
  · rw [hrj]
    simp only [runJobSuccess, DB.updateJob, hid]
    rw [map_if_id_comp db.jobs jid (fun j => { j with status := JobStatus.running })
      (fun j => { j with status := JobStatus.completed, completed_at := some env.now })
      (fun j => rfl)]

/-- Closed instantiation of C4: running queued job 1 of `exDB` against a
success response with 4 URLs and total cost 2 appends 4 Image and 4
Config rows, with `batch_index` 0..3 and per-Config cost 1/2, and
completes the job. -/
theorem run_job_success_persists_witness :
    (run_job exEnvC4 exDB 1).2.2 = .ok
      { success := true
        images := ["u0", "u1", "u2", "u3"]
        inf_id := some (exRespOk4.inf_id.getD "")
        credit_cost := some (exRespOk4.credit_cost.getD 0) } ∧
    (run_job exEnvC4 exDB 1).2.1 =
      [buildInferencePayload exEnvC4.settings.sinkin_api_key exEnvC4.fileExists
        (jobInferArgs exRun exCfg (resolveInitPath exDB exJobQueued))] ∧
    (run_job exEnvC4 exDB 1).1.images.length =
      exDB.images.length + (["u0", "u1", "u2", "u3"] : List String).length ∧
    (run_job exEnvC4 exDB 1).1.configs.length =
      exDB.configs.length + (["u0", "u1", "u2", "u3"] : List String).length ∧
    (∀ i, i < (["u0", "u1", "u2", "u3"] : List String).length → ∃ img c,
      (run_job exEnvC4 exDB 1).1.images[exDB.images.length + i]? = some img ∧
      (run_job exEnvC4 exDB 1).1.configs[exDB.configs.length + i]? = some c ∧
      img.batch_index = some (i : ℤ) ∧
      img.run_id = exRun.id ∧
      img.inf_id = some (exRespOk4.inf_id.getD "") ∧
      img.is_failed = false ∧
      c.image_id = img.id ∧
      c.credit_cost = some (exRespOk4.credit_cost.getD 0 /
        ((["u0", "u1", "u2", "u3"] : List String).length : ℚ))) ∧
    (run_job exEnvC4 exDB 1).1.jobs = exDB.jobs.map fun j =>
      if j.id = 1 then { j with status := .completed, completed_at := some exEnvC4.now }
      else j :=
  run_job_success_persists exEnvC4 exDB 1 exJobQueued exRun exCfg exRespOk4
    ["u0", "u1", "u2", "u3"] rfl rfl rfl rfl (by decide) rfl (by decide) rfl (by decide)

/-! ## C5 — cancelling a job -/

/-- C5 counterexample: the claim "the cancel operation deletes a Job
only when it is still queued" fails on the code: job 2 of `exDB` is
`completed` (not queued), yet `delete_job` deletes it successfully and
it no longer resolves. -/
theorem delete_job_deletes_completed_counterexample :
    exDB.jobs.find? (fun j => j.id == 2) = some exJobCompleted ∧
    exJobCompleted.status = .completed ∧
    (delete_job exDB 2).2 = .ok ⟨true, "Job 2 deleted"⟩ ∧
    (delete_job exDB 2).1.jobs.find? (fun j => j.id == 2) = none :=
  ⟨rfl, rfl, rfl, rfl⟩

/-- C5 (amended): `delete_job` refuses to delete a `running` job with a
conflict error (HTTP 400) and leaves the store unchanged; any other
found job — in particular a `queued` one — is deleted permanently, so it
appears in no subsequent `list_jobs` listing. -/
theorem delete_job_spec (db : DB) (jid : Nat) (job : JobRow)
    (hfind : db.jobs.find? (fun j => j.id == jid) = some job) :
    (job.status = .running →
      delete_job db jid = (db, .error ⟨400, "Cannot delete a running job"⟩)) ∧
    (job.status ≠ .running →
      (delete_job db jid).2 = .ok ⟨true, "Job " ++ toString jid ++ " deleted"⟩ ∧
      (delete_job db jid).1 = { db with jobs := db.jobs.filter fun j => !(j.id == jid) } ∧
      ∀ st rid j, j ∈ list_jobs (delete_job db jid).1 st rid → j.id ≠ jid) := by
  constructor
  · intro h
    simp [delete_job, hfind, h]
  · intro h
    have hd : delete_job db jid =
        ({ db with jobs := db.jobs.filter fun j => !(j.id == jid) },
         .ok ⟨true, "Job " ++ toString jid ++ " deleted"⟩) := by
      simp [delete_job, hfind, h]
    refine ⟨by rw [hd], by rw [hd], ?_⟩
    intro st rid j hj
    rw [hd] at hj
    simp only [list_jobs, List.mem_mergeSort, List.mem_filter] at hj
    have h2 := hj.1.2
    simpa using h2

/-- Closed instantiation of C5 (amended) at queued job 1 of `exDB`. -/
theorem delete_job_spec_witness :
    (exJobQueued.status = .running →
      delete_job exDB 1 = (exDB, .error ⟨400, "Cannot delete a running job"⟩)) ∧
    (exJobQueued.status ≠ .running →
      (delete_job exDB 1).2 = .ok ⟨true, "Job " ++ toString 1 ++ " deleted"⟩ ∧
      (delete_job exDB 1).1 =
        { exDB with jobs := exDB.jobs.filter fun j => !(j.id == 1) } ∧
      ∀ st rid j, j ∈ list_jobs (delete_job exDB 1).1 st rid → j.id ≠ 1) :=
  delete_job_spec exDB 1 exJobQueued rfl

/-! ## C9 — run deletion cascades -/

/-- C9: deleting a missing Run is rejected with 404 and changes nothing;
deleting an existing Run removes the Run row, every Job and every Image
of that Run, and every Config belonging to one of those Images — after
the deletion no Job, Image or Config row references the deleted Run. -/
theorem delete_run_cascades (db : DB) (rid : String) :
    (db.runs.find? (fun r => r.id == rid) = none →
      delete_run db rid = (db, .error ⟨404, "Run not found"⟩)) ∧
    (∀ run, db.runs.find? (fun r => r.id == rid) = some run →
      (delete_run db rid).2 = .ok ⟨true, "Run " ++ rid ++ " deleted"⟩ ∧
      (∀ r, r ∈ (delete_run db rid).1.runs → r.id ≠ rid) ∧
      (∀ j, j ∈ (delete_run db rid).1.jobs → j.run_id ≠ rid) ∧
      (∀ img, img ∈ (delete_run db rid).1.images → img.run_id ≠ rid) ∧
      (∀ c, c ∈ (delete_run db rid).1.configs → ∀ img, img ∈ db.images →
        img.run_id = rid → c.image_id ≠ img.id)) := by
  constructor
  · intro h
    simp [delete_run, h]
  · intro run hfind
    have hd : delete_run db rid =
        ({ db with
            runs := db.runs.filter fun r => !(r.id == rid)
            jobs := db.jobs.filter fun j => !(j.run_id == rid)
            images := db.images.filter fun img => !(img.run_id == rid)
            configs := db.configs.filter fun c =>
              !((db.images.filter fun img => img.run_id == rid).any fun img =>
                img.id == c.image_id) },
         .ok ⟨true, "Run " ++ rid ++ " deleted"⟩) := by
      simp [delete_run, hfind]
    refine ⟨by rw [hd], ?_, ?_, ?_, ?_⟩
    · intro r hr
      rw [hd] at hr
      simp only [List.mem_filter] at hr
      simpa using hr.2
    · intro j hj
      rw [hd] at hj
      simp only [List.mem_filter] at hj
      simpa using hj.2
    · intro img himg
      rw [hd] at himg
      simp only [List.mem_filter] at himg
      simpa using himg.2
    · intro c hc img himg hrid
      rw [hd] at hc
      simp only [List.mem_filter, Bool.not_eq_true', List.any_eq_false] at hc
      have := hc.2 img ⟨himg, by simp [hrid]⟩
      simp only [beq_iff_eq] at this
      exact fun h => this (h ▸ rfl)

/-- Closed instantiation of C9 at `exDBfull` and run "run-1". -/
theorem delete_run_cascades_witness :
    (delete_run exDBfull "run-1").2 = .ok ⟨true, "Run " ++ "run-1" ++ " deleted"⟩ ∧
    (∀ r, r ∈ (delete_run exDBfull "run-1").1.runs → r.id ≠ "run-1") ∧
    (∀ j, j ∈ (delete_run exDBfull "run-1").1.jobs → j.run_id ≠ "run-1") ∧
    (∀ img, img ∈ (delete_run exDBfull "run-1").1.images → img.run_id ≠ "run-1") ∧
    (∀ c, c ∈ (delete_run exDBfull "run-1").1.configs → ∀ img, img ∈ exDBfull.images →
      img.run_id = "run-1" → c.image_id ≠ img.id) :=
  (delete_run_cascades exDBfull "run-1").2 exRun rfl

/-! ## C8 — upscale cost accumulation -/

theorem find?_map_pres {α : Type} (p : α → Bool) (g : α → α)
    (hg : ∀ x, p (g x) = p x) (l : List α) :
    (l.map g).find? p = (l.find? p).map g := by
  induction l with
  | nil => simp
  | cons a t ih =>
    by_cases h : p a = true
    · rw [List.map_cons, List.find?_cons_of_pos _ ((hg a).trans h),
        List.find?_cons_of_pos _ h]
      rfl
    · rw [List.map_cons,
        List.find?_cons_of_neg _ (by simp only [hg]; simpa using h),
        List.find?_cons_of_neg _ (by simpa using h), ih]

/-- Full success-state characterization of one `upscale_image` call:
the image's `upscale_url` is set from the response's `output`, and the
Config's `credit_cost` becomes its previous value (missing treated as 0)
plus the response's incremental `credit_cost`. -/
theorem upscale_image_success (env : UpscaleEnv) (db : DB) (image_id url : String)
    (req : UpscaleRequest) (image : ImageRow) (config : ConfigRow) (d : RespDict)
    (u : UpscaleRespDict)
    (himg : db.images.find? (fun i => i.id == image_id) = some image)
    (hinf : strTruthy image.inf_id = true)
    (hcfg : db.configs.find? (fun c => c.image_id == image_id) = some config)
    (hraw : config.raw_response_json = some (.parsed d))
    (hne : (d.images.getD []).isEmpty = false)
    (hsel : selectSourceUrl (d.images.getD []) image.batch_index = some url)
    (hkey : env.settings.sinkin_api_key ≠ "")
    (htr : env.transport (buildUpscalePayload env.settings.sinkin_api_key
      (image.inf_id.getD "") url req.type.value req.scale req.strength) = .ok u)
    (hok : u.error_code.getD 0 = 0) :
    upscale_image env db image_id req =
      ({ db with
          images := db.images.map fun i =>
            if i.id == image.id then { i with upscale_url := u.output } else i
          configs := db.configs.map fun c =>
            if c.id == config.id then
              { c with credit_cost := some (c.credit_cost.getD 0 + u.credit_cost.getD 0) }
            else c },
       .ok { success := true
             upscale_url := u.output
             credit_cost := u.credit_cost.getD 0
             type := req.type.value }) := by
  simp [upscale_image, himg, hinf, hcfg, hraw, hne, hsel, sinkin_upscale, hkey, htr, hok]

/-- C8: a successful upscale sets the Config's `credit_cost` to its
previous value (missing treated as 0) plus the call's incremental cost;
applying a second successful upscale adds again, so two upscales with
incremental costs c1 and c2 leave a Config that started at c0 holding
c0 + c1 + c2 — the prior total is never overwritten. -/
theorem upscale_accumulates_cost (env1 env2 : UpscaleEnv) (db : DB)
    (image_id url : String) (req : UpscaleRequest) (image : ImageRow)
    (config : ConfigRow) (d : RespDict) (u1 u2 : UpscaleRespDict)
    (himg : db.images.find? (fun i => i.id == image_id) = some image)
    (hinf : strTruthy image.inf_id = true)
    (hcfg : db.configs.find? (fun c => c.image_id == image_id) = some config)
    (hraw : config.raw_response_json = some (.parsed d))
    (hne : (d.images.getD []).isEmpty = false)
    (hsel : selectSourceUrl (d.images.getD []) image.batch_index = some url)
    (hkey1 : env1.settings.sinkin_api_key ≠ "")
    (hkey2 : env2.settings.sinkin_api_key ≠ "")
    (htr1 : env1.transport (buildUpscalePayload env1.settings.sinkin_api_key
      (image.inf_id.getD "") url req.type.value req.scale req.strength) = .ok u1)
    (hok1 : u1.error_code.getD 0 = 0)
    (htr2 : env2.transport (buildUpscalePayload env2.settings.sinkin_api_key
      (image.inf_id.getD "") url req.type.value req.scale req.strength) = .ok u2)
    (hok2 : u2.error_code.getD 0 = 0) :
    (upscale_image env1 db image_id req).1.configs.find?
        (fun c => c.image_id == image_id) =
      some { config with
        credit_cost := some (config.credit_cost.getD 0 + u1.credit_cost.getD 0) } ∧
    (upscale_image env2 (upscale_image env1 db image_id req).1
        image_id req).1.configs.find? (fun c => c.image_id == image_id) =
      some { config with
        credit_cost := some (config.credit_cost.getD 0 + u1.credit_cost.getD 0
          + u2.credit_cost.getD 0) } := by
  have h1 := upscale_image_success env1 db image_id url req image config d u1
    himg hinf hcfg hraw hne hsel hkey1 htr1 hok1
  have hgi : ∀ x : ImageRow,
      ((if x.id == image.id then { x with upscale_url := u1.output } else x).id
        == image_id) = (x.id == image_id) := by
    intro x
    by_cases h : (x.id == image.id) = true <;> simp [h]
  have hgc1 : ∀ x : ConfigRow,
      ((if x.id == config.id then
          { x with credit_cost := some (x.credit_cost.getD 0 + u1.credit_cost.getD 0) }
        else x).image_id == image_id) = (x.image_id == image_id) := by
    intro x
    by_cases h : (x.id == config.id) = true <;> simp [h]
  have himg1 : (upscale_image env1 db image_id req).1.images.find?
      (fun i => i.id == image_id) = some { image with upscale_url := u1.output } := by
    rw [h1]
    dsimp only
    rw [find?_map_pres (fun i => i.id == image_id) _ hgi db.images, himg]
    simp
  have hcfg1 : (upscale_image env1 db image_id req).1.configs.find?
      (fun c => c.image_id == image_id) =
      some { config with
        credit_cost := some (config.credit_cost.getD 0 + u1.credit_cost.getD 0) } := by
    rw [h1]
    dsimp only
    rw [find?_map_pres (fun c => c.image_id == image_id) _ hgc1 db.configs, hcfg]
    simp
  refine ⟨hcfg1, ?_⟩
  have h2 := upscale_image_success env2 (upscale_image env1 db image_id req).1
    image_id url req { image with upscale_url := u1.output }
    { config with
      credit_cost := some (config.credit_cost.getD 0 + u1.credit_cost.getD 0) }
    d u2 himg1 hinf hcfg1 hraw hne hsel hkey2 htr2 hok2
  rw [h2]
  dsimp only
  have hgc2 : ∀ x : ConfigRow,
      ((if x.id == config.id then
          { x with credit_cost := some (x.credit_cost.getD 0 + u2.credit_cost.getD 0) }
        else x).image_id == image_id) = (x.image_id == image_id) := by
    intro x
    by_cases h : (x.id == config.id) = true <;> simp [h]
  rw [find?_map_pres (fun c => c.image_id == image_id)
    (fun x => if x.id == config.id then
      { x with credit_cost := some (x.credit_cost.getD 0 + u2.credit_cost.getD 0) }
    else x) hgc2 ((upscale_image env1 db image_id req).1.configs), hcfg1]
  simp

/-- Closed instantiation of C8: upscaling image "img-1" (Config cost
starts at 1/2) twice with incremental costs 1/4 and 1/8 leaves the
Config at 1/2 + 1/4 + 1/8. -/
theorem upscale_accumulates_cost_witness :
    (upscale_image exUpEnv1 exDBimg "img-1" exUpReq).1.configs.find?
        (fun c => c.image_id == "img-1") =
      some { exConfig with
        credit_cost := some (exConfig.credit_cost.getD 0
          + exUpOk1.credit_cost.getD 0) } ∧
    (upscale_image exUpEnv2 (upscale_image exUpEnv1 exDBimg "img-1" exUpReq).1
        "img-1" exUpReq).1.configs.find? (fun c => c.image_id == "img-1") =
      some { exConfig with
        credit_cost := some (exConfig.credit_cost.getD 0 + exUpOk1.credit_cost.getD 0
          + exUpOk2.credit_cost.getD 0) } :=
  upscale_accumulates_cost exUpEnv1 exUpEnv2 exDBimg "img-1" "u1" exUpReq exImage
    exConfig exRespOk4 exUpOk1 exUpOk2 rfl (by decide) rfl rfl rfl rfl (by decide)
    (by decide) rfl (by decide) rfl (by decide)

/-! ## C10 — upscale source-URL selection -/

/-- C10 counterexample: the claim says the selection "never fails on a
bad index".  For stored image "img-2" with `batch_index = -2` and a
one-element URL list, the negative index passes the `index >= len`
fallback check, Python indexing `image_urls[-2]` raises an uncaught
`IndexError`, and the operation fails with no URL selected. -/
theorem upscale_negative_index_counterexample :
    exImageNeg.batch_index = some (-2) ∧
    exRespOne.images = some ["only-url"] ∧
    selectSourceUrl ["only-url"] (some (-2)) = none ∧
    upscale_image exUpEnv1 exDBneg "img-2" exUpReq =
      (exDBneg, .error .indexError) :=
  ⟨rfl, rfl, rfl, rfl⟩

/-- C10 (amended): the upscale operation indexes the stored raw
response's URL list with the Image's `batch_index`, falling back to
index 0 when `batch_index` is null or ≥ the list length; for every
Image whose `batch_index` is null or non-negative (which is every
value the Job Executor writes) the selected URL is an element of the
non-empty stored list, and `upscale_image` never ends in `IndexError`.
(A stored `batch_index` below `-len` would raise — see the
counterexample.) -/
theorem upscale_index_fallback (bi : Option Int)
    (hb : bi = none ∨ ∃ b, bi = some b ∧ 0 ≤ b) :
    (∀ urls : List String, urls ≠ [] →
      ∃ u, selectSourceUrl urls bi = some u ∧ u ∈ urls) ∧
    (∀ (env : UpscaleEnv) (db : DB) (image_id : String) (req : UpscaleRequest)
      (image : ImageRow),
      db.images.find? (fun i => i.id == image_id) = some image →
      image.batch_index = bi →
      (upscale_image env db image_id req).2 ≠ .error RouteErr.indexError) := by
  have hsel : ∀ urls : List String, urls ≠ [] →
      ∃ u, selectSourceUrl urls bi = some u ∧ u ∈ urls := by
    intro urls hne
    have hlen : 0 < urls.length := List.length_pos.mpr hne
    rcases hb with rfl | ⟨b, rfl, hb0⟩
    · have h0 : selectSourceUrl urls none = urls[0]? := by
        unfold selectSourceUrl pyIndex
        simp
      exact ⟨urls[0], by rw [h0, List.getElem?_eq_getElem hlen],
        List.getElem_mem hlen⟩
    · by_cases hge : (urls.length : Int) ≤ b
      · have h0 : selectSourceUrl urls (some b) = urls[0]? := by
          unfold selectSourceUrl pyIndex
          simp [hge]
        exact ⟨urls[0], by rw [h0, List.getElem?_eq_getElem hlen],
          List.getElem_mem hlen⟩
      · have hblt : b.toNat < urls.length := by omega
        have h0 : selectSourceUrl urls (some b) = urls[b.toNat]? := by
          unfold selectSourceUrl pyIndex
          simp [hge, hb0]
        exact ⟨urls[b.toNat], by rw [h0, List.getElem?_eq_getElem hblt],
          List.getElem_mem hblt⟩
  refine ⟨hsel, ?_⟩
  intro env db image_id req image hfind hbi
  by_cases hinf : strTruthy image.inf_id = true
  · rcases hcfg2 : db.configs.find? (fun c => c.image_id == image_id) with _ | config
    · simp [upscale_image, hfind, hinf, hcfg2]
    · rcases hraw : config.raw_response_json with _ | sr
      · simp [upscale_image, hfind, hinf, hcfg2, hraw]
      · cases sr with
        | invalid => simp [upscale_image, hfind, hinf, hcfg2, hraw]
        | parsed dd =>
          by_cases hmt : (dd.images.getD []).isEmpty = true
          · simp [upscale_image, hfind, hinf, hcfg2, hraw, hmt]
          · have hne3 : dd.images.getD [] ≠ [] := by
              simpa [List.isEmpty_iff] using hmt
            obtain ⟨u, hu, _⟩ := hsel (dd.images.getD []) hne3
            rw [← hbi] at hu
            rcases hup : sinkin_upscale env.settings env.transport (image.inf_id.getD "")
                u req.type.value req.scale req.strength with e | res
            · simp [upscale_image, hfind, hinf, hcfg2, hraw, hmt, hu, hup]
            · by_cases herr : res.error_code.getD 0 = 0
              · simp [upscale_image, hfind, hinf, hcfg2, hraw, hmt, hu, hup, herr]
              · simp [upscale_image, hfind, hinf, hcfg2, hraw, hmt, hu, hup, herr]
  · simp [upscale_image, hfind, hinf]

/-- Closed instantiation of C10 (amended) at `batch_index = some 1`. -/
theorem upscale_index_fallback_witness :
    (∀ urls : List String, urls ≠ [] →
      ∃ u, selectSourceUrl urls (some 1) = some u ∧ u ∈ urls) ∧
    (∀ (env : UpscaleEnv) (db : DB) (image_id : String) (req : UpscaleRequest)
      (image : ImageRow),
      db.images.find? (fun i => i.id == image_id) = some image →
      image.batch_index = some 1 →
      (upscale_image env db image_id req).2 ≠ .error RouteErr.indexError) :=
  upscale_index_fallback (some 1) (Or.inr ⟨1, rfl, by decide⟩)

/-! ## C7 — scoring (schema/handler mismatch) -/

/-- C7 (code behaviour at the claim's inputs): for every stored Image
and every `ScoreRequest`, the `score_image` handler raises
`AttributeError` on its very first field read — `request.score_overall`
is not a declared field of `ScoreRequest` (src/backend/schemas.py
declares only the legacy names) — so the request fails (HTTP 500) before
any update and the stored state is returned unchanged.  In particular a
request carrying only `is_failed` does not update the image, contrary to
the claim's partial-update behaviour. -/
theorem score_image_attribute_error (db : DB) (image_id : String) (r : ScoreRequest)
    (image : ImageRow)
    (hfind : db.images.find? (fun i => i.id == image_id) = some image) :
    score_image db image_id r = (db, .error (.attributeError "score_overall")) := by
  have hga : r.getattr "score_overall" = none := rfl
  simp [score_image, hfind, scoreHandlerFields, applyScoreUpdates, hga]

/-- Closed instantiation of C7's failing input: scoring image "img-1"
with `{"is_failed": true}` raises `AttributeError` and changes
nothing. -/
theorem score_image_attribute_error_witness :
    score_image exDBimg "img-1" exScoreReq =
      (exDBimg, .error (.attributeError "score_overall")) :=
  score_image_attribute_error exDBimg "img-1" exScoreReq exImage rfl
